import Mathlib

/-!
Shallow embedding of `src/test/smoke.py` (permission-matrix smoke-test
harness) and `src/models/sentiment/app.py` (stub inference service).

Python values are embedded as follows: `str` as `String`, `bytes` as
`List UInt8`, `int` status codes as `Nat`, `os.environ` as a function
`String → Option String`, dictionaries as association lists, and Python
exceptions as an explicit `PyErr` error value threaded through `Except`
or recorded in outcome types.  External effect boundaries that the
script merely calls (the `httpx.post` network call, `Path.read_text`,
`jwt.encode`, the mohawk `Sender` signature) are oracle parameters
gathered in a `World` record, so every function of the script becomes a
pure function of its `World`.
-/

/-- A Python exception value, identified by category and message. -/
inductive PyErr where
  | runtimeError (msg : String)
  | keyError (key : String)
  | osError (msg : String)
  | signError (msg : String)
deriving DecidableEq

/-- `SERVICES = ["service_a", "service_b", "service_c"]` (smoke.py line 21). -/
def SERVICES : List String := ["service_a", "service_b", "service_c"]

/-- `ENDPOINTS = ["sentiment", "regression", "classification"]` (smoke.py line 22). -/
def ENDPOINTS : List String := ["sentiment", "regression", "classification"]

/-- `APISIX_BASE_URL` (smoke.py line 23). -/
def APISIX_BASE_URL : String := "http://localhost:9080"

/-- `HAWK_BASE_URL` (smoke.py line 24). -/
def HAWK_BASE_URL : String := "http://localhost:9081"

/-- `REQUEST_CONTENT_TYPE` (smoke.py line 25). -/
def REQUEST_CONTENT_TYPE : String := "application/json"

/-- `EXPECTED_PERMISSIONS` (smoke.py lines 27-31), a dict of dicts embedded
as an association list of association lists, in source order. -/
def EXPECTED_PERMISSIONS : List (String × List (String × Bool)) :=
  [("service_a", [("sentiment", true), ("regression", true), ("classification", false)]),
   ("service_b", [("sentiment", false), ("regression", false), ("classification", true)]),
   ("service_c", [("sentiment", true), ("regression", false), ("classification", true)])]

/-- Dictionary lookup `EXPECTED_PERMISSIONS[service][endpoint]`; `none` is
Python's `KeyError` (never hit for the fixed service/endpoint sets). -/
def expectedPermission (service endpoint : String) : Option Bool :=
  match EXPECTED_PERMISSIONS.lookup service with
  | none => none
  | some row => row.lookup endpoint

/-- One entry of `HAWK_CREDENTIALS` (smoke.py lines 33-37): the consumer's
hawk id and the name of its shared-key environment variable. -/
structure HawkCred where
  id : String
  env : String
deriving DecidableEq

/-- `HAWK_CREDENTIALS` (smoke.py lines 33-37) as an association list. -/
def HAWK_CREDENTIALS : List (String × HawkCred) :=
  [("service_a", ⟨"service_a_id", "SERVICE_A_HAWK_KEY"⟩),
   ("service_b", ⟨"service_b_id", "SERVICE_B_HAWK_KEY"⟩),
   ("service_c", ⟨"service_c_id", "SERVICE_C_HAWK_KEY"⟩)]

/-- The two proxy modes of `ProxyMode = Literal["apisix", "hawk"]` (line 39). -/
inductive ProxyMode where
  | apisix
  | hawk
deriving DecidableEq

/-- `EndpointResult` dataclass (smoke.py lines 44-48). -/
structure EndpointResult where
  status_code : Nat
  status_text : String
  body : String
deriving DecidableEq

/-- The process environment `os.environ`: a variable name maps to `none`
when unset.  `os.getenv` on a set variable returns its string value. -/
abbrev EnvMap := String → Option String

/-- Python truthiness of `os.getenv(var)`: `none` when the variable is
unset or holds the empty string (both are falsy), `some value` otherwise. -/
def envTruthy (env : EnvMap) (var : String) : Option String :=
  match env var with
  | none => none
  | some s => if s = "" then none else some s

/-- `create_request_body` (smoke.py lines 51-53):
`json.dumps` of the one-field dict with separators `(",", ":")` produces
`\x7b"text":"test input"\x7d`, and `.encode("utf-8")` of that all-ASCII
string yields one byte per character, equal to its code point. -/
def create_request_body : List UInt8 :=
  ("\x7b\"text\":\"test input\"\x7d".data.map (fun c => UInt8.ofNat c.toNat))

/-- `result_matches_expectation` (smoke.py lines 175-179). -/
def result_matches_expectation (status_code : Nat) (expected_allowed : Bool) : Bool :=
  if expected_allowed then
    status_code == 200
  else
    status_code == 401 || status_code == 403

/-- `format_result` (smoke.py lines 182-188); the f-strings are embedded
as string concatenation with `toString` for the interpolated status code. -/
def format_result (status_code : Nat) (expected_allowed : Bool) : String :=
  if status_code == 0 then
    "[yellow]? ERR[/yellow]"
  else if result_matches_expectation status_code expected_allowed then
    "[green]✓ " ++ toString status_code ++ "[/green]"
  else
    "[red]✗ " ++ toString status_code ++ "[/red]"

/-- `validate_hawk_key_env` (smoke.py lines 74-81): collect, in `SERVICES`
order, the hawk env-var names that are unset or empty.  The dictionary
lookup `HAWK_CREDENTIALS[service]` cannot fail for the members of
`SERVICES`; the `none` branch is unreachable there. -/
def validate_hawk_key_env (env : EnvMap) : List String :=
  SERVICES.filterMap fun service =>
    match HAWK_CREDENTIALS.lookup service with
    | none => none
    | some cred => if envTruthy env cred.env = none then some cred.env else none

/-- Python `value.startswith(q) and value.endswith(q)` for the one-char
quote: the empty string satisfies neither, the single quote character
satisfies both. -/
def strippedQuotes (v : String) : String :=
  if v ≠ "" ∧ v.front = '"' ∧ v.back = '"' then (v.drop 1).dropRight 1 else v

/-- One iteration of the loop of `load_hawk_keys_from_env_file`
(smoke.py lines 92-106) over one line of `test/keys/.env`: skip lines
without "=", split at the first "=", skip keys that are not required or
whose variable is already set to a truthy value, strip surrounding
quotes, and set the variable. -/
def loadHawkLine (env : EnvMap) (line : String) : EnvMap :=
  if ¬ line.contains '=' then env
  else
    let parts := line.splitOn "="
    let key := (parts.headD "").trim
    let rawValue := String.intercalate "=" parts.tail
    if ¬ (HAWK_CREDENTIALS.map (fun c => c.2.env)).contains key then env
    else if (envTruthy env key).isSome then env
    else
      let value := strippedQuotes rawValue.trim
      fun v => if v = key then some value else env v

/-- `load_hawk_keys_from_env_file` (smoke.py lines 84-108), acting on the
environment: `fileLines = none` models an absent `test/keys/.env` (the
function returns with the environment unchanged); otherwise each line is
processed in order by `loadHawkLine`.  The `required_vars` set built on
line 91 is exactly the set of `env` fields of `HAWK_CREDENTIALS` because
`SERVICES` enumerates its keys.  The returned load count only feeds a
console message and is not modelled. -/
def load_hawk_keys_from_env_file (fileLines : Option (List String)) (env : EnvMap) : EnvMap :=
  match fileLines with
  | none => env
  | some lines => lines.foldl loadHawkLine env

/-- The claim set signed by `generate_jwt_token` (smoke.py lines 62-68):
sub, the custom issuer-derived claim, nbf = now, exp = now + 1 hour
(timestamps in seconds). -/
structure JwtClaims where
  sub : String
  key : String
  nbf : Nat
  exp : Nat
deriving DecidableEq

/-- `generate_jwt_token` (smoke.py lines 56-71).  `readKey` is the oracle
for `Path.read_text` on `keys/<service>-private.pem` and `jwtEncode` the
oracle for `jwt.encode(..., key, algorithm="RS256")`; either may raise,
and the exception propagates (the function catches nothing). -/
def generate_jwt_token (readKey : String → Except PyErr String)
    (jwtEncode : JwtClaims → String → Except PyErr String)
    (now : Nat) (service_name : String) : Except PyErr String :=
  match readKey service_name with
  | .error e => .error e
  | .ok key =>
      jwtEncode ⟨service_name, "iss_" ++ service_name, now, now + 3600⟩ key

/-- Input of the mohawk `Sender` signature (smoke.py lines 121-127):
credential id and key, request path, method, body bytes, content type. -/
structure HawkSignInput where
  id : String
  key : String
  path : String
  method : String
  content : List UInt8
  contentType : String
deriving DecidableEq

/-- `build_hawk_headers` (smoke.py lines 111-132).  `hawkSign` is the
oracle for `Sender(...).request_header`; since it returns a `String` the
`isinstance(auth_header, str)` guard on line 129 always passes and its
`RuntimeError` branch is unreachable in the embedding.  An unknown
service raises `KeyError` at the dictionary lookup on line 113. -/
def build_hawk_headers (hawkSign : HawkSignInput → String) (env : EnvMap)
    (service path method : String) (body : List UInt8) : Except PyErr (List (String × String)) :=
  match HAWK_CREDENTIALS.lookup service with
  | none => .error (.keyError service)
  | some credentials =>
      match envTruthy env credentials.env with
      | none => .error (.runtimeError
          ("Missing HAWK key in environment variable: " ++ credentials.env))
      | some hawk_key =>
          .ok [("Authorization",
                hawkSign ⟨credentials.id, hawk_key, path, method, body, REQUEST_CONTENT_TYPE⟩)]

/-- The HTTP POST issued by `test_endpoint` (smoke.py lines 156-161):
target URL, body bytes, and headers in insertion order. -/
structure PostRequest where
  url : String
  content : List UInt8
  headers : List (String × String)
deriving DecidableEq

/-- Outcome of `httpx.post`: either a response (status code, reason
phrase, body text) or an `httpx.RequestError` — the transport-failure
exception hierarchy (connect errors, timeouts, DNS and TLS failures) —
carrying the exception type name and its textual detail. -/
inductive HttpOutcome where
  | response (status_code : Nat) (reason_phrase : String) (text : String)
  | requestError (errName : String) (detail : String)
deriving DecidableEq

/-- The request-construction part of `test_endpoint` (smoke.py lines
142-153): path, body and headers, plus the scheme dispatch.  In apisix
mode a missing JWT token raises `RuntimeError` (line 148); in hawk mode
`build_hawk_headers` may raise.  Headers are listed in the dict's
insertion order: Content-Type first (line 144), then Authorization. -/
def dispatchRequest (hawkSign : HawkSignInput → String) (env : EnvMap)
    (mode : ProxyMode) (service endpoint : String) (jwt_token : Option String) :
    Except PyErr PostRequest :=
  let path := "/predict/" ++ endpoint
  let body := create_request_body
  match mode with
  | .apisix =>
      match jwt_token with
      | none => .error (.runtimeError "JWT token is required for APISIX requests")
      | some token =>
          .ok ⟨APISIX_BASE_URL ++ path, body,
               [("Content-Type", REQUEST_CONTENT_TYPE), ("Authorization", token)]⟩
  | .hawk =>
      match build_hawk_headers hawkSign env service path "POST" body with
      | .error e => .error e
      | .ok hawkHeaders =>
          .ok ⟨HAWK_BASE_URL ++ path, body,
               [("Content-Type", REQUEST_CONTENT_TYPE)] ++ hawkHeaders⟩

/-- `test_endpoint` (smoke.py lines 135-172).  `post` is the oracle for
`httpx.post`; a returned response is wrapped into an `EndpointResult`
verbatim (lines 162-166), and an `httpx.RequestError` is caught and
normalised to the status-0 sentinel whose status text names the
exception type and whose body is the exception detail (lines 167-172).
Exceptions raised before the POST propagate as `.error`. -/
def test_endpoint (post : PostRequest → HttpOutcome) (hawkSign : HawkSignInput → String)
    (env : EnvMap) (mode : ProxyMode) (service endpoint : String)
    (jwt_token : Option String) : Except PyErr EndpointResult :=
  match dispatchRequest hawkSign env mode service endpoint jwt_token with
  | .error e => .error e
  | .ok req =>
      match post req with
      | .response status_code reason_phrase text =>
          .ok ⟨status_code, reason_phrase, text⟩
      | .requestError errName detail =>
          .ok ⟨0, "Error: " ++ errName, detail⟩

/-- The external world of one invocation of the script: the process
environment, the optional contents of `test/keys/.env`, the current
time, the key-file, JWT-signing, hawk-signing and HTTP oracles, and the
help text typer renders for `context.get_help()`. -/
structure World where
  env : EnvMap
  envFileLines : Option (List String)
  now : Nat
  readKey : String → Except PyErr String
  jwtEncode : JwtClaims → String → Except PyErr String
  hawkSign : HawkSignInput → String
  post : PostRequest → HttpOutcome
  helpText : String

/-- The dict comprehension on smoke.py line 199: generate one JWT token
per service, in `SERVICES` order, stopping at the first exception. -/
def genTokens (w : World) : List String → Except PyErr (List (String × String))
  | [] => .ok []
  | service :: rest =>
      match generate_jwt_token w.readKey w.jwtEncode w.now service with
      | .error e => .error e
      | .ok token =>
          match genTokens w rest with
          | .error e => .error e
          | .ok toks => .ok ((service, token) :: toks)

/-- The nested request loop of `run_mode` (smoke.py lines 219-224) over a
list of (service, endpoint) cells: dispatch each cell in order and pair
it with its `EndpointResult`.  An exception from `test_endpoint` aborts
the loop and is returned with the cells dispatched before it. -/
def runCells (w : World) (env : EnvMap) (mode : ProxyMode) (tokens : List (String × String)) :
    List (String × String) → (List ((String × String) × EndpointResult)) × Option PyErr
  | [] => ([], none)
  | (service, endpoint) :: rest =>
      match test_endpoint w.post w.hawkSign env mode service endpoint (tokens.lookup service) with
      | .error e => ([], some e)
      | .ok r =>
          let (cells, err) := runCells w env mode tokens rest
          (((service, endpoint), r) :: cells, err)

/-- The iteration order of the matrix: `for service in SERVICES: for
endpoint in ENDPOINTS` (smoke.py lines 219-224). -/
def allCells : List (String × String) :=
  SERVICES.flatMap fun service => ENDPOINTS.map fun endpoint => (service, endpoint)

/-- The mismatch collection of `run_mode` (smoke.py lines 246-252): the
cells, in iteration order, whose status code does not match the expected
verdict.  `EXPECTED_PERMISSIONS[service][endpoint]` cannot fail on the
fixed cells; the `getD false` default is unreachable there. -/
def mismatchesOf (cells : List ((String × String) × EndpointResult)) :
    List ((String × String) × EndpointResult) :=
  cells.filter fun cell =>
    ¬ result_matches_expectation cell.2.status_code ((expectedPermission cell.1.1 cell.1.2).getD false)

/-- How one call of `run_mode` ended: with its boolean return value, or
by raising an uncaught Python exception that propagates to the caller. -/
inductive ModeOutcome where
  | ok (success : Bool)
  | raised (e : PyErr)
deriving DecidableEq

/-- Observable behaviour of one `run_mode` call: its outcome, the
(service, endpoint) cells for which a request reached `httpx.post`, in
dispatch order, and the missing hawk env-var names reported on lines
209-211 (empty unless that early-return branch ran). -/
structure ModeRun where
  outcome : ModeOutcome
  dispatched : List (String × String)
  missingReported : List String
deriving DecidableEq

/-- `run_mode` (smoke.py lines 191-276).  In apisix mode, JWT tokens are
generated for all services first (line 199; an exception there escapes
before any request).  In hawk mode, `test/keys/.env` is loaded into the
environment (line 202), then the hawk env vars are validated; if any is
missing the run prints the missing names and returns False before the
request loop (lines 207-212).  Then every (service, endpoint) cell is
dispatched and the return value is True iff no cell mismatches its
expected verdict (lines 246-276).  Table rendering and the summary and
diagnostic printing do not affect the returned value and are not
modelled beyond `missingReported`. -/
def run_mode (w : World) (mode : ProxyMode) : ModeRun :=
  match mode with
  | .apisix =>
      match genTokens w SERVICES with
      | .error e => ⟨.raised e, [], []⟩
      | .ok tokens =>
          match runCells w w.env .apisix tokens allCells with
          | (cells, some e) => ⟨.raised e, cells.map (·.1), []⟩
          | (cells, none) => ⟨.ok (mismatchesOf cells).isEmpty, cells.map (·.1), []⟩
  | .hawk =>
      let env := load_hawk_keys_from_env_file w.envFileLines w.env
      let missing_vars := validate_hawk_key_env env
      if missing_vars.isEmpty then
        match runCells w env .hawk [] allCells with
        | (cells, some e) => ⟨.raised e, cells.map (·.1), []⟩
        | (cells, none) => ⟨.ok (mismatchesOf cells).isEmpty, cells.map (·.1), []⟩
      else
        ⟨.ok false, [], missing_vars⟩

/-- How the process ends: `typer.Exit` with a code (0 is the normal
return), or an uncaught exception crashing the interpreter. -/
inductive MainOutcome where
  | exit (code : Nat)
  | crash (e : PyErr)
deriving DecidableEq

/-- Observable behaviour of one `main` invocation: the phases entered (in
order), the requests that reached `httpx.post` tagged by phase, the
lines written to stderr, and how the process ended. -/
structure MainTrace where
  ranPhases : List ProxyMode
  dispatched : List (ProxyMode × String × String)
  stderrLines : List String
  outcome : MainOutcome
deriving DecidableEq

/-- The usage-error message echoed to stderr on smoke.py line 296. -/
def usageErrorMsg : String := "\nError: pass --apisix and/or --hawk."

/-- `main` (smoke.py lines 279-309).  With neither flag, the help text
and the usage message go to stderr and `typer.Exit(code=2)` is raised
before any run (lines 294-297).  Otherwise the apisix phase runs first
when selected, then the hawk phase when selected; each phase's boolean
is and-ed into `overall_success`, and an uncaught exception from a phase
crashes the process at that point, skipping any later phase.  Exit code
is 1 when `overall_success` is false, 0 on normal return (lines
299-309).  (The definition lives in the `smoke` namespace because a
top-level Lean `main` must be an IO entry point.) -/
def smoke.main (w : World) (apisix hawk : Bool) : MainTrace :=
  if apisix = false ∧ hawk = false then
    ⟨[], [], [w.helpText, usageErrorMsg], .exit 2⟩
  else if apisix then
    let r1 := run_mode w .apisix
    let d1 := r1.dispatched.map fun c => (ProxyMode.apisix, c)
    match r1.outcome with
    | .raised e => ⟨[.apisix], d1, [], .crash e⟩
    | .ok s1 =>
        if hawk then
          let r2 := run_mode w .hawk
          let d2 := r2.dispatched.map fun c => (ProxyMode.hawk, c)
          match r2.outcome with
          | .raised e => ⟨[.apisix, .hawk], d1 ++ d2, [], .crash e⟩
          | .ok s2 => ⟨[.apisix, .hawk], d1 ++ d2, [], .exit (if s1 && s2 then 0 else 1)⟩
        else
          ⟨[.apisix], d1, [], .exit (if s1 then 0 else 1)⟩
  else
    let r2 := run_mode w .hawk
    let d2 := r2.dispatched.map fun c => (ProxyMode.hawk, c)
    match r2.outcome with
    | .raised e => ⟨[.hawk], d2, [], .crash e⟩
    | .ok s2 => ⟨[.hawk], d2, [], .exit (if s2 then 0 else 1)⟩

/-- The empty process environment: every variable unset. -/
def envEmpty : EnvMap := fun _ => none

/-- An environment where all three hawk shared-key variables are set. -/
def envAllHawk : EnvMap := fun v =>
  if v = "SERVICE_A_HAWK_KEY" ∨ v = "SERVICE_B_HAWK_KEY" ∨ v = "SERVICE_C_HAWK_KEY" then
    some "hawk-secret"
  else
    none

/-- A stub mohawk signing oracle. -/
def hawkSignStub : HawkSignInput → String := fun _ => "hawk-auth"

/-- An HTTP oracle for an unreachable gateway: every POST raises
`httpx.ConnectError`. -/
def postRefused : PostRequest → HttpOutcome :=
  fun _ => .requestError "ConnectError" "All connection attempts failed"

/-- An HTTP oracle for a gateway that answers 200 to everything. -/
def postAll200 : PostRequest → HttpOutcome := fun _ => .response 200 "OK" "resp"

/-- A key-file oracle for absent private-key files: every read raises. -/
def readKeyFail : String → Except PyErr String := fun _ => .error (.osError "FileNotFoundError")

/-- A key-file oracle that reads every private key successfully. -/
def readKeyOk : String → Except PyErr String := fun _ => .ok "PEM"

/-- A JWT-signing oracle that always succeeds. -/
def jwtEncodeOk : JwtClaims → String → Except PyErr String := fun _ _ => .ok "token"

/-- A JWT-signing oracle whose signing operation always fails. -/
def jwtEncodeFail : JwtClaims → String → Except PyErr String :=
  fun _ _ => .error (.signError "could not deserialize key data")

/-- A world with an empty environment, no `.env` file, working key files
and signing, and a gateway that answers 200 to everything. -/
def wEmptyEnv : World :=
  ⟨envEmpty, none, 0, readKeyOk, jwtEncodeOk, hawkSignStub, postAll200, "Usage: smoke.py"⟩

/-- A world where every private-key file is absent (reads raise) while
hawk credentials and the gateway are fine. -/
def wKeyFileMissing : World :=
  ⟨envAllHawk, none, 0, readKeyFail, jwtEncodeOk, hawkSignStub, postAll200, "Usage: smoke.py"⟩

/-- The request `test_endpoint` builds in apisix mode for service_a and
the sentiment endpoint with the token "token". -/
def reqSentimentA : PostRequest :=
  ⟨"http://localhost:9080/predict/sentiment", create_request_body,
   [("Content-Type", "application/json"), ("Authorization", "token")]⟩

/-- The canonical permission matrix exactly as the spec's ground-truth
table states it (spec §6), written independently of
`EXPECTED_PERMISSIONS` so the two can be compared; pairs outside the
table's rows and columns are not in the spec's domain. -/
def specCanonicalMatrix : String → String → Bool
  | "service_a", "sentiment" => true
  | "service_a", "regression" => true
  | "service_a", "classification" => false
  | "service_b", "sentiment" => false
  | "service_b", "regression" => false
  | "service_b", "classification" => true
  | "service_c", "sentiment" => true
  | "service_c", "regression" => false
  | "service_c", "classification" => true
  | _, _ => false

/-- Helper: the positive (green) and negative (red) markers of
`format_result` are never the same string, whatever status code is
interpolated — their lengths differ. -/
theorem green_marker_ne_red_marker (x : String) :
    "[green]✓ " ++ x ++ "[/green]" ≠ "[red]✗ " ++ x ++ "[/red]" := by
  intro h
  have hl := congrArg String.length h
  rw [String.length_append, String.length_append, String.length_append,
    String.length_append] at hl
  have h1 : ("[green]✓ " : String).length = 9 := rfl
  have h2 : ("[/green]" : String).length = 8 := rfl
  have h3 : ("[red]✗ " : String).length = 7 := rfl
  have h4 : ("[/red]" : String).length = 6 := rfl
  omega

/-- C1: `result_matches_expectation s e` is true exactly when e is
allowed and s = 200, or e is denied and s is 401 or 403; every other
status code, the transport sentinel 0 included, yields false for either
expectation. -/
theorem result_matches_expectation_spec :
    (∀ (s : Nat) (e : Bool), result_matches_expectation s e = true ↔
      ((e = true ∧ s = 200) ∨ (e = false ∧ (s = 401 ∨ s = 403)))) ∧
    (∀ (e : Bool), result_matches_expectation 0 e = false) := by
  constructor
  · intro s e
    cases e <;> simp [result_matches_expectation]
  · intro e
    cases e <;> rfl

/-- C5: the expected-permission table's rows are exactly the three
services, each row's columns are exactly the three endpoints (so every
(consumer, endpoint) pair gets exactly one boolean verdict), and every
cell equals the spec's canonical matrix. -/
theorem expected_permissions_matrix_canonical :
    EXPECTED_PERMISSIONS.map Prod.fst = SERVICES ∧
    (EXPECTED_PERMISSIONS.all fun row => row.2.map Prod.fst == ENDPOINTS) = true ∧
    (SERVICES.all fun service => ENDPOINTS.all fun endpoint =>
      expectedPermission service endpoint == some (specCanonicalMatrix service endpoint)) =
        true := by
  exact ⟨rfl, by decide, by decide⟩

/-- C10: calling `test_endpoint` in apisix mode with `jwt_token = None`
raises `RuntimeError` before any request is sent: the result is that
exception for every possible HTTP oracle, so the oracle is never
consulted. -/
theorem test_endpoint_apisix_requires_token
    (post : PostRequest → HttpOutcome) (hawkSign : HawkSignInput → String) (env : EnvMap)
    (service endpoint : String) :
    test_endpoint post hawkSign env ProxyMode.apisix service endpoint none =
      .error (.runtimeError "JWT token is required for APISIX requests") := rfl

/-- C8: `format_result` classifies three ways, mirroring
`result_matches_expectation` exactly: status 0 gives the indeterminate
marker; for any other status the result is the positive marker
annotated with the code iff the verdict matches, and the negative
marker annotated with the code iff it does not. -/
theorem format_result_mirrors_verdict : ∀ (s : Nat) (e : Bool),
    (s = 0 → format_result s e = "[yellow]? ERR[/yellow]") ∧
    (s ≠ 0 →
      ((format_result s e = "[green]✓ " ++ toString s ++ "[/green]" ↔
          result_matches_expectation s e = true) ∧
       (format_result s e = "[red]✗ " ++ toString s ++ "[/red]" ↔
          result_matches_expectation s e = false))) := by
  intro s e
  constructor
  · intro h
    simp [format_result, h]
  · intro hs
    have h0 : (s == 0) = false := by simp [hs]
    cases hm : result_matches_expectation s e with
    | true =>
        have hfmt : format_result s e = "[green]✓ " ++ toString s ++ "[/green]" := by
          simp [format_result, h0, hm]
        rw [hfmt]
        constructor
        · simp
        · constructor
          · intro h
            exact absurd h (green_marker_ne_red_marker (toString s))
          · intro h
            exact Bool.noConfusion h
    | false =>
        have hfmt : format_result s e = "[red]✗ " ++ toString s ++ "[/red]" := by
          simp [format_result, h0, hm]
        rw [hfmt]
        constructor
        · constructor
          · intro h
            exact absurd h.symm (green_marker_ne_red_marker (toString s))
          · intro h
            exact Bool.noConfusion h
        · simp

/-- C8 witness: the theorem applied at status 0 (indeterminate marker)
and at status 404 with an allowed expectation (negative marker iff the
verdict does not match). -/
theorem format_result_mirrors_verdict_witness :
    format_result 0 true = "[yellow]? ERR[/yellow]" ∧
    (format_result 404 true = "[red]✗ " ++ toString 404 ++ "[/red]" ↔
      result_matches_expectation 404 true = false) :=
  ⟨(format_result_mirrors_verdict 0 true).1 rfl,
   ((format_result_mirrors_verdict 404 true).2 (by decide)).2⟩

/-- C9: the request body is the fixed canonical byte string (the
whitespace-free JSON serialization, UTF-8 encoded, of the one-field
object), and every request `dispatchRequest` builds — under either
scheme — carries exactly these bytes as content. -/
theorem request_body_canonical_bytes :
    create_request_body =
      [123, 34, 116, 101, 120, 116, 34, 58, 34,
       116, 101, 115, 116, 32, 105, 110, 112, 117, 116, 34, 125] ∧
    ∀ (hawkSign : HawkSignInput → String) (env : EnvMap) (mode : ProxyMode)
      (service endpoint : String) (jwt_token : Option String) (req : PostRequest),
      dispatchRequest hawkSign env mode service endpoint jwt_token = .ok req →
      req.content = create_request_body := by
  constructor
  · decide
  · intro hawkSign env mode service endpoint jwt_token req h
    cases mode with
    | apisix =>
        cases jwt_token with
        | none => exact Except.noConfusion h
        | some token =>
            have heq : Except.ok (⟨APISIX_BASE_URL ++ ("/predict/" ++ endpoint),
                create_request_body,
                [("Content-Type", REQUEST_CONTENT_TYPE), ("Authorization", token)]⟩ :
                  PostRequest) = Except.ok req := h
            injection heq with h2
            rw [← h2]
    | hawk =>
        cases hb : build_hawk_headers hawkSign env service ("/predict/" ++ endpoint)
            "POST" create_request_body with
        | error e =>
            have : dispatchRequest hawkSign env ProxyMode.hawk service endpoint jwt_token =
                .error e := by
              simp [dispatchRequest, hb]
            rw [this] at h
            exact Except.noConfusion h
        | ok hawkHeaders =>
            have : dispatchRequest hawkSign env ProxyMode.hawk service endpoint jwt_token =
                .ok ⟨HAWK_BASE_URL ++ ("/predict/" ++ endpoint), create_request_body,
                     [("Content-Type", REQUEST_CONTENT_TYPE)] ++ hawkHeaders⟩ := by
              simp [dispatchRequest, hb]
            rw [this] at h
            injection h with h2
            rw [← h2]

/-- C9 witness: the theorem applied to the concrete apisix request for
service_a and the sentiment endpoint. -/
theorem request_body_canonical_bytes_witness :
    dispatchRequest hawkSignStub envEmpty ProxyMode.apisix "service_a" "sentiment"
        (some "token") = .ok reqSentimentA ∧
    reqSentimentA.content = create_request_body :=
  ⟨rfl,
   request_body_canonical_bytes.2 hawkSignStub envEmpty ProxyMode.apisix "service_a"
     "sentiment" (some "token") reqSentimentA rfl⟩

/-- C2: whenever the request reaches `httpx.post` and the POST fails at
the transport level (an `httpx.RequestError`), `test_endpoint` does not
propagate an exception: it returns an `EndpointResult` with status code
0, a status text naming the failure category, and the failure's textual
detail as body — for every scheme, consumer, endpoint and credential. -/
theorem test_endpoint_transport_failure_sentinel
    (post : PostRequest → HttpOutcome) (hawkSign : HawkSignInput → String) (env : EnvMap)
    (mode : ProxyMode) (service endpoint : String) (jwt_token : Option String)
    (req : PostRequest) (errName detail : String)
    (hreq : dispatchRequest hawkSign env mode service endpoint jwt_token = .ok req)
    (hpost : post req = .requestError errName detail) :
    test_endpoint post hawkSign env mode service endpoint jwt_token =
      .ok ⟨0, "Error: " ++ errName, detail⟩ := by
  simp [test_endpoint, hreq, hpost]

/-- C2 witness: the theorem applied to an unreachable apisix gateway
(connection refused on every POST). -/
theorem test_endpoint_transport_failure_sentinel_witness :
    dispatchRequest hawkSignStub envEmpty ProxyMode.apisix "service_a" "sentiment"
        (some "token") = .ok reqSentimentA ∧
    test_endpoint postRefused hawkSignStub envEmpty ProxyMode.apisix "service_a"
        "sentiment" (some "token") =
      .ok ⟨0, "Error: " ++ "ConnectError", "All connection attempts failed"⟩ :=
  ⟨rfl,
   test_endpoint_transport_failure_sentinel postRefused hawkSignStub envEmpty
     ProxyMode.apisix "service_a" "sentiment" (some "token") reqSentimentA
     "ConnectError" "All connection attempts failed" rfl rfl⟩

/-- C3: when, after the optional `.env` preload, at least one hawk
shared-key environment variable is unset or empty, the hawk run returns
False with no request dispatched, reporting exactly the missing
variable names. -/
theorem run_mode_hawk_missing_env_aborts (w : World)
    (h : validate_hawk_key_env (load_hawk_keys_from_env_file w.envFileLines w.env) ≠ []) :
    run_mode w ProxyMode.hawk =
      ⟨.ok false, [],
       validate_hawk_key_env (load_hawk_keys_from_env_file w.envFileLines w.env)⟩ := by
  have hne :
      (validate_hawk_key_env (load_hawk_keys_from_env_file w.envFileLines w.env)).isEmpty =
        false := by
    cases hl : validate_hawk_key_env (load_hawk_keys_from_env_file w.envFileLines w.env) with
    | nil => exact absurd hl h
    | cons a t => rfl
  simp [run_mode, hne]

/-- C3 witness: in the empty environment with no `.env` file, all three
variables are reported missing and the hawk run fails with nothing
dispatched. -/
theorem run_mode_hawk_missing_env_aborts_witness :
    validate_hawk_key_env
        (load_hawk_keys_from_env_file wEmptyEnv.envFileLines wEmptyEnv.env) ≠ [] ∧
    run_mode wEmptyEnv ProxyMode.hawk =
      ⟨.ok false, [],
       validate_hawk_key_env
         (load_hawk_keys_from_env_file wEmptyEnv.envFileLines wEmptyEnv.env)⟩ :=
  ⟨by decide, run_mode_hawk_missing_env_aborts wEmptyEnv (by decide)⟩

/-- C4: the CLI maps invocations to exit statuses: with neither flag the
trace is exactly help text plus usage message on stderr, no phase run,
no request dispatched, exit code 2; when the selected runs return
booleans, the exit code is 0 iff all of them are True and 1 otherwise. -/
theorem main_exit_code_mapping (w : World) :
    smoke.main w false false = ⟨[], [], [w.helpText, usageErrorMsg], .exit 2⟩ ∧
    (∀ s1, (run_mode w ProxyMode.apisix).outcome = .ok s1 →
      (smoke.main w true false).outcome = .exit (if s1 then 0 else 1)) ∧
    (∀ s2, (run_mode w ProxyMode.hawk).outcome = .ok s2 →
      (smoke.main w false true).outcome = .exit (if s2 then 0 else 1)) ∧
    (∀ s1 s2, (run_mode w ProxyMode.apisix).outcome = .ok s1 →
      (run_mode w ProxyMode.hawk).outcome = .ok s2 →
      (smoke.main w true true).outcome = .exit (if s1 && s2 then 0 else 1)) := by
  refine ⟨rfl, fun s1 h1 => ?_, fun s2 h2 => ?_, fun s1 s2 h1 h2 => ?_⟩
  · simp [smoke.main, h1]
  · simp [smoke.main, h2]
  · simp [smoke.main, h1, h2]

/-- C4 witness: the theorem applied to the empty-environment world,
where both runs return False: usage error gives exit 2, and the
two-flag invocation exits with code 1. -/
theorem main_exit_code_mapping_witness :
    smoke.main wEmptyEnv false false =
      ⟨[], [], [wEmptyEnv.helpText, usageErrorMsg], .exit 2⟩ ∧
    (smoke.main wEmptyEnv true true).outcome = .exit 1 :=
  ⟨(main_exit_code_mapping wEmptyEnv).1,
   (main_exit_code_mapping wEmptyEnv).2.2.2 false false (by decide) (by decide)⟩

/-- C6 counterexample: in a world where every private-key file is absent
(`Path.read_text` raises), invoking both schemes runs only the apisix
phase — the exception escapes `run_mode` and crashes the process before
the hawk phase, so a first-phase configuration error does prevent the
second phase, contrary to the claim. -/
theorem main_first_phase_crash_blocks_second :
    (smoke.main wKeyFileMissing true true).ranPhases = [ProxyMode.apisix] ∧
    ProxyMode.hawk ∉ (smoke.main wKeyFileMissing true true).ranPhases ∧
    (smoke.main wKeyFileMissing true true).dispatched = [] ∧
    (smoke.main wKeyFileMissing true true).outcome = .crash (.osError "FileNotFoundError") := by
  decide

/-- C6 amended: when both flags are given and the first (apisix) phase
completes by returning a boolean — which covers verdict mismatches and
the reported missing-credential failure, but not an uncaught exception
such as an absent private-key file — the hawk phase runs as well and
both results contribute to the exit status. -/
theorem main_second_phase_runs_when_first_returns (w : World) (s1 : Bool)
    (h1 : (run_mode w ProxyMode.apisix).outcome = .ok s1) :
    (smoke.main w true true).ranPhases = [ProxyMode.apisix, ProxyMode.hawk] ∧
    (∀ s2, (run_mode w ProxyMode.hawk).outcome = .ok s2 →
      (smoke.main w true true).outcome = .exit (if s1 && s2 then 0 else 1)) := by
  constructor
  · cases h2 : (run_mode w ProxyMode.hawk).outcome with
    | raised e => simp [smoke.main, h1, h2]
    | ok s2 => simp [smoke.main, h1, h2]
  · intro s2 h2
    simp [smoke.main, h1, h2]

/-- C6 amended witness: in the empty-environment world the apisix run
returns False (mismatches), yet the hawk phase still runs and the
process exits with code 1. -/
theorem main_second_phase_runs_when_first_returns_witness :
    (run_mode wEmptyEnv ProxyMode.apisix).outcome = .ok false ∧
    (smoke.main wEmptyEnv true true).ranPhases = [ProxyMode.apisix, ProxyMode.hawk] ∧
    (smoke.main wEmptyEnv true true).outcome = .exit 1 :=
  ⟨by decide,
   (main_second_phase_runs_when_first_returns wEmptyEnv false (by decide)).1,
   (main_second_phase_runs_when_first_returns wEmptyEnv false (by decide)).2 false (by decide)⟩

/-- C7: `generate_jwt_token` fails — returning the error rather than a
token — whenever the private-key read fails, and whenever the read
succeeds but the signing operation fails. -/
theorem generate_jwt_token_error_propagation
    (readKey : String → Except PyErr String)
    (jwtEncode : JwtClaims → String → Except PyErr String)
    (now : Nat) (service : String) (e : PyErr) :
    (readKey service = .error e →
      generate_jwt_token readKey jwtEncode now service = .error e) ∧
    (∀ key, readKey service = .ok key →
      jwtEncode ⟨service, "iss_" ++ service, now, now + 3600⟩ key = .error e →
      generate_jwt_token readKey jwtEncode now service = .error e) := by
  constructor
  · intro h
    simp [generate_jwt_token, h]
  · intro key hk hs
    simp [generate_jwt_token, hk, hs]

/-- C7 witness: the theorem applied to an absent key file, and to a
failing signing operation. -/
theorem generate_jwt_token_error_propagation_witness :
    generate_jwt_token readKeyFail jwtEncodeOk 0 "service_a" =
      .error (.osError "FileNotFoundError") ∧
    generate_jwt_token readKeyOk jwtEncodeFail 0 "service_a" =
      .error (.signError "could not deserialize key data") :=
  ⟨(generate_jwt_token_error_propagation readKeyFail jwtEncodeOk 0 "service_a"
      (.osError "FileNotFoundError")).1 rfl,
   (generate_jwt_token_error_propagation readKeyOk jwtEncodeFail 0 "service_a"
      (.signError "could not deserialize key data")).2 "PEM" rfl rfl⟩
